import Mathlib

/-!
Verification of the deterministic Odds Valuation Engine of the repository:
the two tools in `src/tools.py` (`TeamStrengthTool._run`, alias
`analyze_team_strength`, and `OddsAnalysisTool._run`, alias
`analyze_odds_value`).

Embedding conventions:
* Python floats are modelled as exact rationals (ℚ); every constant in the
  source (0.5, 0.2, 0.1, 0.05, 0.9) is exactly representable.
* Python `Optional[T]` is `Option T`; Python truthiness of an optional
  string is "is some and non-empty", of an optional float "is some and
  non-zero".
* `str.upper()` / `str.lower()` act character-wise (ASCII), modelled by
  mapping `Char.toUpper` / `Char.toLower` over the string data.
* Guarded divisions (`x / y if cond else 0`) become `if cond then x / y
  else 0`; ℚ division itself is total.
-/

/-- Python truthiness of an `Optional[str]` argument: present and non-empty. -/
def truthyStr (o : Option String) : Bool :=
  match o with
  | none => false
  | some s => s != ""

/-- Python truthiness of an `Optional[float]` argument: present and non-zero. -/
def truthyNum (o : Option ℚ) : Bool :=
  match o with
  | none => false
  | some x => x != 0

/-- Case-insensitive string comparison, the embedding of
`a.lower() == b.lower()` in `tools.py` line 76/79. -/
def lowerEq (a b : String) : Bool :=
  a.data.map Char.toLower == b.data.map Char.toLower

/-- `team1_recent_form.upper().count('W')` (`tools.py` lines 64/70). -/
def formWins (f : String) : ℕ :=
  (f.data.map Char.toUpper).count 'W'

/-- `team1_wins / len(team1_recent_form) if team1_recent_form else 0.5`
(`tools.py` lines 65/71; the `else 0.5` arm is dead in the source because the
expression sits under `if team1_recent_form:`). -/
def formScore (f : String) : ℚ :=
  if f != "" then (formWins f : ℚ) / (f.length : ℚ) else 1/2

/-- Input schema `TeamStrengthInput` of `tools.py`. -/
structure MatchContext where
  team1 : String
  team2 : String
  team1_recent_form : Option String := none
  team2_recent_form : Option String := none
  team1_record : Option String := none
  team2_record : Option String := none
  head_to_head : Option String := none
  home_team : Option String := none
  additional_context : Option String := none

/-- The result of `TeamStrengthTool._run`: the two (full-precision,
post-normalization) strength scores reported in the returned text, plus the
`factors` list. -/
structure StrengthResult where
  team1_score : ℚ
  team2_score : ℚ
  factors : List String
deriving DecidableEq

/-- Accumulated raw score of team1 before normalization
(`tools.py` lines 59, 63-67 and 75-78): base 0.5, plus the recent-form
contribution `form_score * 0.2` when the form string is truthy, plus the
home-advantage 0.1 when `home_team` is truthy and case-insensitively equals
`team1`. -/
def team1RawScore (ctx : MatchContext) : ℚ :=
  let s : ℚ := 1/2
  let s := if truthyStr ctx.team1_recent_form then
      s + formScore (ctx.team1_recent_form.getD "") * (2/10)
    else s
  if truthyStr ctx.home_team && lowerEq (ctx.home_team.getD "") ctx.team1 then
    s + 1/10
  else s

/-- Accumulated raw score of team2 before normalization
(`tools.py` lines 60, 69-73 and 79-81); the home bonus sits in the `elif`
branch, so it requires the home team NOT to match team1. -/
def team2RawScore (ctx : MatchContext) : ℚ :=
  let s : ℚ := 1/2
  let s := if truthyStr ctx.team2_recent_form then
      s + formScore (ctx.team2_recent_form.getD "") * (2/10)
    else s
  if truthyStr ctx.home_team && !lowerEq (ctx.home_team.getD "") ctx.team1
      && lowerEq (ctx.home_team.getD "") ctx.team2 then
    s + 1/10
  else s

/-- The ordered `factors` list built by `TeamStrengthTool._run`
(`tools.py` lines 61, 67, 73, 78, 81, 83-87). -/
def strengthFactors (ctx : MatchContext) : List String :=
  let factors : List String := []
  let factors := if truthyStr ctx.team1_recent_form then
      factors ++ ["Team1 recent form: " ++ ctx.team1_recent_form.getD ""]
    else factors
  let factors := if truthyStr ctx.team2_recent_form then
      factors ++ ["Team2 recent form: " ++ ctx.team2_recent_form.getD ""]
    else factors
  let factors := if truthyStr ctx.home_team
      && lowerEq (ctx.home_team.getD "") ctx.team1 then
      factors ++ [ctx.team1 ++ " has home advantage"]
    else if truthyStr ctx.home_team
      && lowerEq (ctx.home_team.getD "") ctx.team2 then
      factors ++ [ctx.team2 ++ " has home advantage"]
    else factors
  let factors := if truthyStr ctx.head_to_head then
      factors ++ ["Head-to-head: " ++ ctx.head_to_head.getD ""]
    else factors
  if truthyStr ctx.additional_context then
    factors ++ ["Additional context: " ++ ctx.additional_context.getD ""]
  else factors

/-- `TeamStrengthTool._run` (`tools.py` lines 36-102): accumulate both raw
scores, then normalize by their sum when the sum is positive
(lines 89-93). The function performs no validation of the team names. -/
def analyzeTeamStrength (ctx : MatchContext) : StrengthResult :=
  let team1_score := team1RawScore ctx
  let team2_score := team2RawScore ctx
  let total := team1_score + team2_score
  let team1_score := if total > 0 then team1_score / total else team1_score
  let team2_score := if total > 0 then team2_score / total else team2_score
  { team1_score := team1_score
    team2_score := team2_score
    factors := strengthFactors ctx }

/-- The three possible outcomes of `OddsAnalysisTool`. -/
inductive Outcome where
  | team1
  | team2
  | draw
deriving DecidableEq

/-- The numeric content of the text returned by `OddsAnalysisTool._run`:
per-outcome implied probability, actual probability and expected value, and
the ordered recommendation list (absent outcomes carry 0, exactly as the
source's local variables do). -/
structure ValuationResult where
  team1_implied_prob : ℚ
  team2_implied_prob : ℚ
  draw_implied_prob : ℚ
  team1_actual_prob : ℚ
  team2_actual_prob : ℚ
  draw_actual_prob : ℚ
  team1_ev : ℚ
  team2_ev : ℚ
  draw_ev : ℚ
  recommendations : List Outcome
deriving DecidableEq

/-- `OddsAnalysisTool._run` (`tools.py` lines 124-186).  Implied
probabilities are guarded divisions (lines 135-137), strength scores are
normalized by their sum with a 0.5/0.5 fallback (lines 139-146), a truthy
`draw_odds` triggers the fixed 0.1 draw prior with 0.9 scaling
(lines 148-157), EV is `actual * odds - 1` (lines 159-163) and an outcome is
recommended when its EV exceeds 0.05 (lines 165-172), in the order team1,
team2, draw. -/
def analyzeOdds (team1_odds team2_odds : ℚ) (draw_odds : Option ℚ)
    (team1_strength team2_strength : ℚ) : ValuationResult :=
  let team1_implied_prob := if team1_odds > 0 then 1 / team1_odds else 0
  let team2_implied_prob := if team2_odds > 0 then 1 / team2_odds else 0
  let dOdds := draw_odds.getD 0
  let draw_implied_prob :=
    if truthyNum draw_odds && decide (dOdds > 0) then 1 / dOdds else 0
  let total_strength := team1_strength + team2_strength
  let team1_actual_prob := if total_strength > 0 then
      team1_strength / total_strength else 1/2
  let team2_actual_prob := if total_strength > 0 then
      team2_strength / total_strength else 1/2
  let hasDraw := truthyNum draw_odds
  let draw_actual_prob := if hasDraw then (1:ℚ)/10 else 0
  let remaining_prob : ℚ := 9/10
  let team1_actual_prob := if hasDraw then
      team1_actual_prob * remaining_prob else team1_actual_prob
  let team2_actual_prob := if hasDraw then
      team2_actual_prob * remaining_prob else team2_actual_prob
  let draw_implied_prob := if hasDraw then draw_implied_prob else 0
  let team1_ev := team1_actual_prob * team1_odds - 1
  let team2_ev := team2_actual_prob * team2_odds - 1
  let draw_ev := if hasDraw then draw_actual_prob * dOdds - 1 else 0
  let recommendations :=
    (if team1_ev > 5/100 then [Outcome.team1] else []) ++
    (if team2_ev > 5/100 then [Outcome.team2] else []) ++
    (if draw_ev > 5/100 && hasDraw then [Outcome.draw] else [])
  { team1_implied_prob := team1_implied_prob
    team2_implied_prob := team2_implied_prob
    draw_implied_prob := draw_implied_prob
    team1_actual_prob := team1_actual_prob
    team2_actual_prob := team2_actual_prob
    draw_actual_prob := draw_actual_prob
    team1_ev := team1_ev
    team2_ev := team2_ev
    draw_ev := draw_ev
    recommendations := recommendations }

/-- The same context with the `home_team` field cleared; used to state what
the home-advantage branch adds on top of the other contributions. -/
def withoutHome (ctx : MatchContext) : MatchContext :=
  { ctx with home_team := none }

/-- The same context with a form field cleared; used to state that a
whitespace-only form string contributes nothing. -/
def withoutForm1 (ctx : MatchContext) : MatchContext :=
  { ctx with team1_recent_form := none }

/-- The same context with team2's form field cleared. -/
def withoutForm2 (ctx : MatchContext) : MatchContext :=
  { ctx with team2_recent_form := none }

lemma formScore_nonneg (f : String) : 0 ≤ formScore f := by
  unfold formScore
  split
  · positivity
  · norm_num

lemma team1RawScore_half_le (ctx : MatchContext) : 1/2 ≤ team1RawScore ctx := by
  have h0 := formScore_nonneg (ctx.team1_recent_form.getD "")
  simp only [team1RawScore]
  split <;> split <;> linarith

lemma team2RawScore_half_le (ctx : MatchContext) : 1/2 ≤ team2RawScore ctx := by
  have h0 := formScore_nonneg (ctx.team2_recent_form.getD "")
  simp only [team2RawScore]
  split <;> split <;> linarith

lemma rawTotal_pos (ctx : MatchContext) :
    0 < team1RawScore ctx + team2RawScore ctx := by
  have h1 := team1RawScore_half_le ctx
  have h2 := team2RawScore_half_le ctx
  linarith

lemma analyzeTeamStrength_team1_score (ctx : MatchContext) :
    (analyzeTeamStrength ctx).team1_score =
      team1RawScore ctx / (team1RawScore ctx + team2RawScore ctx) := by
  simp only [analyzeTeamStrength]
  rw [if_pos (rawTotal_pos ctx)]

lemma analyzeTeamStrength_team2_score (ctx : MatchContext) :
    (analyzeTeamStrength ctx).team2_score =
      team2RawScore ctx / (team1RawScore ctx + team2RawScore ctx) := by
  simp only [analyzeTeamStrength]
  rw [if_pos (rawTotal_pos ctx)]

lemma strength_sum_eq_one (ctx : MatchContext) :
    (analyzeTeamStrength ctx).team1_score + (analyzeTeamStrength ctx).team2_score = 1 := by
  rw [analyzeTeamStrength_team1_score, analyzeTeamStrength_team2_score,
    div_add_div_same, div_self (ne_of_gt (rawTotal_pos ctx))]

lemma strength_scores_bounds (ctx : MatchContext) :
    0 ≤ (analyzeTeamStrength ctx).team1_score ∧ (analyzeTeamStrength ctx).team1_score ≤ 1 ∧
    0 ≤ (analyzeTeamStrength ctx).team2_score ∧ (analyzeTeamStrength ctx).team2_score ≤ 1 := by
  have h1 := team1RawScore_half_le ctx
  have h2 := team2RawScore_half_le ctx
  have hpos := rawTotal_pos ctx
  rw [analyzeTeamStrength_team1_score, analyzeTeamStrength_team2_score]
  refine ⟨by positivity, ?_, by positivity, ?_⟩
  · rw [div_le_one hpos]; linarith
  · rw [div_le_one hpos]; linarith

/-- C2: for every valid MatchContext (non-empty team names, any combination
of optional fields), the two scores produced by `analyze_team_strength` sum
to 1.0 (exactly, in rational arithmetic, hence within the 1e-9 tolerance)
and each lies in [0,1]. -/
theorem claim_C2 (ctx : MatchContext) (h1 : ctx.team1 ≠ "") (h2 : ctx.team2 ≠ "") :
    (analyzeTeamStrength ctx).team1_score + (analyzeTeamStrength ctx).team2_score = 1 ∧
    0 ≤ (analyzeTeamStrength ctx).team1_score ∧ (analyzeTeamStrength ctx).team1_score ≤ 1 ∧
    0 ≤ (analyzeTeamStrength ctx).team2_score ∧ (analyzeTeamStrength ctx).team2_score ≤ 1 :=
  ⟨strength_sum_eq_one ctx, strength_scores_bounds ctx⟩

/-- Witness for C2 at the concrete context (team "A" vs team "B"). -/
theorem claim_C2_witness :
    (analyzeTeamStrength { team1 := "A", team2 := "B" }).team1_score +
      (analyzeTeamStrength { team1 := "A", team2 := "B" }).team2_score = 1 ∧
    0 ≤ (analyzeTeamStrength { team1 := "A", team2 := "B" }).team1_score ∧
    (analyzeTeamStrength { team1 := "A", team2 := "B" }).team1_score ≤ 1 ∧
    0 ≤ (analyzeTeamStrength { team1 := "A", team2 := "B" }).team2_score ∧
    (analyzeTeamStrength { team1 := "A", team2 := "B" }).team2_score ≤ 1 :=
  claim_C2 { team1 := "A", team2 := "B" } (by decide) (by decide)

lemma team1RawScore_form (ctx : MatchContext) (f : String)
    (hf : ctx.team1_recent_form = some f) (hne : f ≠ "")
    (hh : ctx.home_team = none) :
    team1RawScore ctx = 1/2 + ((formWins f : ℚ) / (f.length : ℚ)) * (2/10) := by
  simp [team1RawScore, hf, hh, truthyStr, formScore, hne]

lemma team2RawScore_form (ctx : MatchContext) (f : String)
    (hf : ctx.team2_recent_form = some f) (hne : f ≠ "")
    (hh : ctx.home_team = none) :
    team2RawScore ctx = 1/2 + ((formWins f : ℚ) / (f.length : ℚ)) * (2/10) := by
  simp [team2RawScore, hf, hh, truthyStr, formScore, hne]

/-- A MatchContext carrying only the two team names and the two form
strings, the shape quantified over in C4. -/
def formOnlyCtx (t1 t2 f1 f2 : String) (rec1 rec2 h2h addl : Option String) :
    MatchContext :=
  { team1 := t1
    team2 := t2
    team1_recent_form := some f1
    team2_recent_form := some f2
    team1_record := rec1
    team2_record := rec2
    head_to_head := h2h
    home_team := none
    additional_context := addl }

/-- Scenario A of the spec: team1_form "WWLWW", team2_form "WLWWL", no home
team. -/
def scenarioA : MatchContext :=
  { team1 := "A"
    team2 := "B"
    team1_recent_form := some "WWLWW"
    team2_recent_form := some "WLWWL" }

/-- C4: for every MatchContext with non-empty form strings (and no home
team), `analyze_team_strength` starts each team at 0.5, adds
(count of W, case-insensitive) / (length of the form string) × 0.2, and
normalizes by the sum; for team1_form="WWLWW", team2_form="WLWWL" and no
home team, the raw scores are 0.66 and 0.62 and the normalized scores are
33/64 = 0.515625 ≈ 0.5156 and 31/64 = 0.484375 ≈ 0.4844. -/
theorem claim_C4 :
    (∀ (t1 t2 f1 f2 : String) (rec1 rec2 h2h addl : Option String),
      f1 ≠ "" → f2 ≠ "" →
      (analyzeTeamStrength (formOnlyCtx t1 t2 f1 f2 rec1 rec2 h2h addl)).team1_score =
        (1/2 + ((formWins f1 : ℚ) / (f1.length : ℚ)) * (2/10)) /
          ((1/2 + ((formWins f1 : ℚ) / (f1.length : ℚ)) * (2/10)) +
            (1/2 + ((formWins f2 : ℚ) / (f2.length : ℚ)) * (2/10))) ∧
      (analyzeTeamStrength (formOnlyCtx t1 t2 f1 f2 rec1 rec2 h2h addl)).team2_score =
        (1/2 + ((formWins f2 : ℚ) / (f2.length : ℚ)) * (2/10)) /
          ((1/2 + ((formWins f1 : ℚ) / (f1.length : ℚ)) * (2/10)) +
            (1/2 + ((formWins f2 : ℚ) / (f2.length : ℚ)) * (2/10)))) ∧
    (team1RawScore scenarioA = 33/50 ∧
     team2RawScore scenarioA = 31/50 ∧
     (analyzeTeamStrength scenarioA).team1_score = 33/64 ∧
     (analyzeTeamStrength scenarioA).team2_score = 31/64) := by
  have h1 : formWins "WWLWW" = 4 := by decide
  have h2 : formWins "WLWWL" = 3 := by decide
  have h3 : ("WWLWW" : String).length = 5 := by decide
  have h4 : ("WLWWL" : String).length = 5 := by decide
  have hne1 : ("WWLWW" : String) ≠ "" := by decide
  have hne2 : ("WLWWL" : String) ≠ "" := by decide
  have hraw1 : team1RawScore scenarioA = 33/50 := by
    rw [team1RawScore_form scenarioA "WWLWW" rfl hne1 rfl, h1, h3]; norm_num
  have hraw2 : team2RawScore scenarioA = 31/50 := by
    rw [team2RawScore_form scenarioA "WLWWL" rfl hne2 rfl, h2, h4]; norm_num
  refine ⟨?_, hraw1, hraw2, ?_, ?_⟩
  · intro t1 t2 f1 f2 rec1 rec2 h2h addl hf1 hf2
    constructor
    · rw [analyzeTeamStrength_team1_score,
        team1RawScore_form _ f1 rfl hf1 rfl, team2RawScore_form _ f2 rfl hf2 rfl]
    · rw [analyzeTeamStrength_team2_score,
        team1RawScore_form _ f1 rfl hf1 rfl, team2RawScore_form _ f2 rfl hf2 rfl]
  · rw [analyzeTeamStrength_team1_score, hraw1, hraw2]; norm_num
  · rw [analyzeTeamStrength_team2_score, hraw1, hraw2]; norm_num

/-- Witness for C4 at the concrete Scenario A inputs. -/
theorem claim_C4_witness :
    (analyzeTeamStrength (formOnlyCtx "A" "B" "WWLWW" "WLWWL"
        none none none none)).team1_score =
      (1/2 + ((formWins "WWLWW" : ℚ) / (("WWLWW" : String).length : ℚ)) * (2/10)) /
        ((1/2 + ((formWins "WWLWW" : ℚ) / (("WWLWW" : String).length : ℚ)) * (2/10)) +
          (1/2 + ((formWins "WLWWL" : ℚ) / (("WLWWL" : String).length : ℚ)) * (2/10))) :=
  (claim_C4.1 "A" "B" "WWLWW" "WLWWL" none none none none
    (by decide) (by decide)).1

lemma lowerEq_ne_empty {a b : String} (hl : lowerEq a b = true) (hb : b ≠ "") :
    a ≠ "" := by
  intro ha
  apply hb
  subst ha
  unfold lowerEq at hl
  have hmap : b.data.map Char.toLower = [] := by
    have h0 : (("" : String).data.map Char.toLower) = ([] : List Char) := rfl
    have h1 : (("" : String).data.map Char.toLower) = b.data.map Char.toLower :=
      beq_iff_eq.mp hl
    rw [h0] at h1
    exact h1.symm
  have hbd : b.data = [] := List.map_eq_nil_iff.mp hmap
  obtain ⟨d⟩ := b
  simp only at hbd
  subst hbd
  rfl

/-- C6: if `home_team` case-insensitively matches team1's name, 0.1 is added
to team1's raw score before normalization; if it matches team2's name (and
not team1's — the source uses an elif), 0.1 is added to team2's raw score;
if it matches neither, both raw scores are unaffected. -/
theorem claim_C6 (ctx : MatchContext) (h : String)
    (hh : ctx.home_team = some h)
    (ht1 : ctx.team1 ≠ "") (ht2 : ctx.team2 ≠ "") :
    (lowerEq h ctx.team1 = true →
      team1RawScore ctx = team1RawScore (withoutHome ctx) + 1/10 ∧
      team2RawScore ctx = team2RawScore (withoutHome ctx)) ∧
    (lowerEq h ctx.team1 = false → lowerEq h ctx.team2 = true →
      team2RawScore ctx = team2RawScore (withoutHome ctx) + 1/10 ∧
      team1RawScore ctx = team1RawScore (withoutHome ctx)) ∧
    (lowerEq h ctx.team1 = false → lowerEq h ctx.team2 = false →
      team1RawScore ctx = team1RawScore (withoutHome ctx) ∧
      team2RawScore ctx = team2RawScore (withoutHome ctx)) := by
  refine ⟨fun hm => ?_, fun hm1 hm2 => ?_, fun hm1 hm2 => ?_⟩
  · have hne : h ≠ "" := lowerEq_ne_empty hm ht1
    constructor
    · simp [team1RawScore, withoutHome, hh, truthyStr, hne, hm]
    · simp [team2RawScore, withoutHome, hh, truthyStr, hne, hm]
  · have hne : h ≠ "" := lowerEq_ne_empty hm2 ht2
    constructor
    · simp [team2RawScore, withoutHome, hh, truthyStr, hne, hm1, hm2]
    · simp [team1RawScore, withoutHome, hh, truthyStr, hne, hm1]
  · constructor
    · simp [team1RawScore, withoutHome, hh, truthyStr, hm1]
    · simp [team2RawScore, withoutHome, hh, truthyStr, hm1, hm2]

/-- A context where the home team "a" case-insensitively matches team1 "A". -/
def homeCtx : MatchContext :=
  { team1 := "A", team2 := "B", home_team := some "a" }

/-- Witness for C6: with team1 "A", team2 "B" and home_team "a", team1's raw
score gains exactly 0.1 and team2's raw score is unchanged. -/
theorem claim_C6_witness :
    team1RawScore homeCtx = team1RawScore (withoutHome homeCtx) + 1/10 ∧
    team2RawScore homeCtx = team2RawScore (withoutHome homeCtx) :=
  (claim_C6 homeCtx "a" rfl (by decide) (by decide)).1 (by decide)

lemma whitespace_toUpper_ne_W {c : Char} (hc : c.isWhitespace = true) :
    Char.toUpper c ≠ 'W' := by
  have h4 : ((c = ' ' ∨ c = '\t') ∨ c = '\r') ∨ c = '\n' := by
    simpa [Char.isWhitespace, decide_eq_true_eq] using hc
  rcases h4 with ((rfl | rfl) | rfl) | rfl <;> decide

lemma formWins_whitespace {f : String}
    (hws : ∀ c ∈ f.data, c.isWhitespace = true) : formWins f = 0 := by
  unfold formWins
  rw [List.count_eq_zero]
  intro hmem
  rw [List.mem_map] at hmem
  obtain ⟨c, hc, hcw⟩ := hmem
  exact whitespace_toUpper_ne_W (hws c hc) hcw

lemma team1RawScore_whitespace (ctx : MatchContext) (f : String)
    (hf : ctx.team1_recent_form = some f)
    (hws : ∀ c ∈ f.data, c.isWhitespace = true) :
    team1RawScore ctx = team1RawScore (withoutForm1 ctx) := by
  by_cases hne : f = ""
  · subst hne
    simp [team1RawScore, withoutForm1, hf, truthyStr]
  · have h0 : formScore f = 0 := by
      simp [formScore, hne, formWins_whitespace hws]
    simp [team1RawScore, withoutForm1, hf, truthyStr, hne, h0]

lemma team2RawScore_whitespace (ctx : MatchContext) (f : String)
    (hf : ctx.team2_recent_form = some f)
    (hws : ∀ c ∈ f.data, c.isWhitespace = true) :
    team2RawScore ctx = team2RawScore (withoutForm2 ctx) := by
  by_cases hne : f = ""
  · subst hne
    simp [team2RawScore, withoutForm2, hf, truthyStr]
  · have h0 : formScore f = 0 := by
      simp [formScore, hne, formWins_whitespace hws]
    simp [team2RawScore, withoutForm2, hf, truthyStr, hne, h0]

/-- C7: a form string that is empty, or whitespace-only (length 0 after
trimming), contributes nothing to the team's score — the strength scores are
the same as with the form field absent, and the (total) computation divides
by the string length only when it is non-empty. -/
theorem claim_C7 :
    (∀ (ctx : MatchContext) (f : String), ctx.team1_recent_form = some f →
      (∀ c ∈ f.data, c.isWhitespace = true) →
      (analyzeTeamStrength ctx).team1_score =
        (analyzeTeamStrength (withoutForm1 ctx)).team1_score ∧
      (analyzeTeamStrength ctx).team2_score =
        (analyzeTeamStrength (withoutForm1 ctx)).team2_score) ∧
    (∀ (ctx : MatchContext) (f : String), ctx.team2_recent_form = some f →
      (∀ c ∈ f.data, c.isWhitespace = true) →
      (analyzeTeamStrength ctx).team1_score =
        (analyzeTeamStrength (withoutForm2 ctx)).team1_score ∧
      (analyzeTeamStrength ctx).team2_score =
        (analyzeTeamStrength (withoutForm2 ctx)).team2_score) := by
  constructor
  · intro ctx f hf hws
    have e1 := team1RawScore_whitespace ctx f hf hws
    have e2 : team2RawScore ctx = team2RawScore (withoutForm1 ctx) := by
      simp [team2RawScore, withoutForm1]
    rw [analyzeTeamStrength_team1_score, analyzeTeamStrength_team1_score,
      analyzeTeamStrength_team2_score, analyzeTeamStrength_team2_score, e1, e2]
    exact ⟨rfl, rfl⟩
  · intro ctx f hf hws
    have e2 := team2RawScore_whitespace ctx f hf hws
    have e1 : team1RawScore ctx = team1RawScore (withoutForm2 ctx) := by
      simp [team1RawScore, withoutForm2]
    rw [analyzeTeamStrength_team1_score, analyzeTeamStrength_team1_score,
      analyzeTeamStrength_team2_score, analyzeTeamStrength_team2_score, e1, e2]
    exact ⟨rfl, rfl⟩

/-- A context whose team1 form string is a single space (whitespace-only). -/
def blankFormCtx : MatchContext :=
  { team1 := "A", team2 := "B", team1_recent_form := some " " }

/-- Witness for C7: a single-space form string gives the same scores as an
absent form field. -/
theorem claim_C7_witness :
    (analyzeTeamStrength blankFormCtx).team1_score =
      (analyzeTeamStrength (withoutForm1 blankFormCtx)).team1_score ∧
    (analyzeTeamStrength blankFormCtx).team2_score =
      (analyzeTeamStrength (withoutForm1 blankFormCtx)).team2_score :=
  claim_C7.1 blankFormCtx " " rfl (by decide)

/-- Counterexample to C8 as stated: with both team names empty,
`analyze_team_strength` does not raise any error — it returns a normal
StrengthResult (scores 0.5/0.5, no factors).  No `InvalidInputError` exists
anywhere in the code. -/
theorem claim_C8_counterexample :
    analyzeTeamStrength { team1 := "", team2 := "" } =
      { team1_score := 1/2, team2_score := 1/2, factors := [] } := by
  norm_num [analyzeTeamStrength, team1RawScore, team2RawScore,
    strengthFactors, truthyStr]

/-- C8 amended: the Team Strength Estimator performs no team-name
validation; on inputs with an empty team-name field it still produces a
StrengthResult by the ordinary scoring rules (raw scores normalized by their
sum, summing to 1). -/
theorem claim_C8_amended (ctx : MatchContext)
    (h : ctx.team1 = "" ∨ ctx.team2 = "") :
    (analyzeTeamStrength ctx).team1_score =
      team1RawScore ctx / (team1RawScore ctx + team2RawScore ctx) ∧
    (analyzeTeamStrength ctx).team2_score =
      team2RawScore ctx / (team1RawScore ctx + team2RawScore ctx) ∧
    (analyzeTeamStrength ctx).team1_score + (analyzeTeamStrength ctx).team2_score = 1 :=
  ⟨analyzeTeamStrength_team1_score ctx, analyzeTeamStrength_team2_score ctx,
    strength_sum_eq_one ctx⟩

/-- Witness for the amended C8 at the context with two empty team names. -/
theorem claim_C8_witness :
    (analyzeTeamStrength { team1 := "", team2 := "" }).team1_score =
      team1RawScore { team1 := "", team2 := "" } /
        (team1RawScore { team1 := "", team2 := "" } +
         team2RawScore { team1 := "", team2 := "" }) ∧
    (analyzeTeamStrength { team1 := "", team2 := "" }).team2_score =
      team2RawScore { team1 := "", team2 := "" } /
        (team1RawScore { team1 := "", team2 := "" } +
         team2RawScore { team1 := "", team2 := "" }) ∧
    (analyzeTeamStrength { team1 := "", team2 := "" }).team1_score +
      (analyzeTeamStrength { team1 := "", team2 := "" }).team2_score = 1 :=
  claim_C8_amended { team1 := "", team2 := "" } (Or.inl rfl)

lemma analyzeOdds_actual_sum (o1 o2 : ℚ) (d : Option ℚ) (s1 s2 : ℚ) :
    (analyzeOdds o1 o2 d s1 s2).team1_actual_prob +
    (analyzeOdds o1 o2 d s1 s2).team2_actual_prob +
    (analyzeOdds o1 o2 d s1 s2).draw_actual_prob = 1 := by
  cases htd : truthyNum d <;> by_cases hs : s1 + s2 > 0
  · have hdiv : s1 / (s1 + s2) + s2 / (s1 + s2) = 1 := by
      rw [div_add_div_same, div_self (ne_of_gt hs)]
    simp only [analyzeOdds, htd, if_pos hs, if_neg, Bool.false_eq_true,
      if_false, add_zero]
    linarith
  · simp only [analyzeOdds, htd, if_neg hs, Bool.false_eq_true, if_false,
      add_zero]
    norm_num
  · have hdiv : s1 / (s1 + s2) + s2 / (s1 + s2) = 1 := by
      rw [div_add_div_same, div_self (ne_of_gt hs)]
    simp only [analyzeOdds, htd, if_pos hs, if_true]
    linarith
  · simp only [analyzeOdds, htd, if_neg hs, if_true]
    norm_num

/-- C3: without a draw, `analyze_odds_value` computes EV =
actual_probability × odds − 1 per outcome and recommends an outcome exactly
when its EV exceeds 0.05, in the order team1, team2; in Scenario C
(odds 2.5 and 1.8, strengths 0.55/0.45) the implied probabilities are 2/5
and 5/9, EV1 = 0.375 (recommended) and EV2 = −0.19 (not recommended). -/
theorem claim_C3 :
    (∀ (o1 o2 s1 s2 : ℚ),
      (analyzeOdds o1 o2 none s1 s2).team1_ev =
        (analyzeOdds o1 o2 none s1 s2).team1_actual_prob * o1 - 1 ∧
      (analyzeOdds o1 o2 none s1 s2).team2_ev =
        (analyzeOdds o1 o2 none s1 s2).team2_actual_prob * o2 - 1 ∧
      (analyzeOdds o1 o2 none s1 s2).recommendations =
        (if (analyzeOdds o1 o2 none s1 s2).team1_ev > 5/100
          then [Outcome.team1] else []) ++
        (if (analyzeOdds o1 o2 none s1 s2).team2_ev > 5/100
          then [Outcome.team2] else [])) ∧
    ((analyzeOdds (5/2) (9/5) none (11/20) (9/20)).team1_implied_prob = 2/5 ∧
     (analyzeOdds (5/2) (9/5) none (11/20) (9/20)).team2_implied_prob = 5/9 ∧
     (analyzeOdds (5/2) (9/5) none (11/20) (9/20)).team1_ev = 3/8 ∧
     (analyzeOdds (5/2) (9/5) none (11/20) (9/20)).team2_ev = -(19/100) ∧
     (analyzeOdds (5/2) (9/5) none (11/20) (9/20)).recommendations =
       [Outcome.team1]) := by
  constructor
  · intro o1 o2 s1 s2
    refine ⟨?_, ?_, ?_⟩ <;> simp [analyzeOdds, truthyNum]
  · refine ⟨?_, ?_, ?_, ?_, ?_⟩ <;> norm_num [analyzeOdds, truthyNum]

/-- C5: when draw odds are supplied (a truthy, i.e. non-zero, value — the
source's presence test `if draw_odds:`), the actual draw probability is the
fixed prior 0.1 and both team actual probabilities are scaled by 0.9, so the
three outcomes sum to 1; in Scenario D (draw_odds 3.2, strengths 0.55/0.45)
actual_draw = 0.10, actual1 = 0.495, actual2 = 0.405 and EV_draw = −0.68. -/
theorem claim_C5 :
    (∀ (o1 o2 dv s1 s2 : ℚ), dv ≠ 0 →
      (analyzeOdds o1 o2 (some dv) s1 s2).draw_actual_prob = 1/10 ∧
      (analyzeOdds o1 o2 (some dv) s1 s2).team1_actual_prob =
        (if s1 + s2 > 0 then s1 / (s1 + s2) else 1/2) * (9/10) ∧
      (analyzeOdds o1 o2 (some dv) s1 s2).team2_actual_prob =
        (if s1 + s2 > 0 then s2 / (s1 + s2) else 1/2) * (9/10) ∧
      (analyzeOdds o1 o2 (some dv) s1 s2).team1_actual_prob +
        (analyzeOdds o1 o2 (some dv) s1 s2).team2_actual_prob +
        (analyzeOdds o1 o2 (some dv) s1 s2).draw_actual_prob = 1) ∧
    ((analyzeOdds (5/2) (9/5) (some (16/5)) (11/20) (9/20)).draw_actual_prob
        = 1/10 ∧
     (analyzeOdds (5/2) (9/5) (some (16/5)) (11/20) (9/20)).team1_actual_prob
        = 99/200 ∧
     (analyzeOdds (5/2) (9/5) (some (16/5)) (11/20) (9/20)).team2_actual_prob
        = 81/200 ∧
     (analyzeOdds (5/2) (9/5) (some (16/5)) (11/20) (9/20)).draw_ev
        = -(17/25)) := by
  constructor
  · intro o1 o2 dv s1 s2 hdv
    have ht : truthyNum (some dv) = true := by simp [truthyNum, hdv]
    refine ⟨?_, ?_, ?_, analyzeOdds_actual_sum o1 o2 (some dv) s1 s2⟩ <;>
      simp [analyzeOdds, ht]
  · refine ⟨?_, ?_, ?_, ?_⟩ <;> norm_num [analyzeOdds, truthyNum]

/-- Witness for C5 at the Scenario D inputs (draw odds 3.2 ≠ 0). -/
theorem claim_C5_witness :
    (analyzeOdds (5/2) (9/5) (some (16/5)) (11/20) (9/20)).draw_actual_prob
        = 1/10 ∧
    (analyzeOdds (5/2) (9/5) (some (16/5)) (11/20) (9/20)).team1_actual_prob =
      (if (11:ℚ)/20 + 9/20 > 0 then ((11:ℚ)/20) / (11/20 + 9/20) else 1/2)
        * (9/10) ∧
    (analyzeOdds (5/2) (9/5) (some (16/5)) (11/20) (9/20)).team2_actual_prob =
      (if (11:ℚ)/20 + 9/20 > 0 then ((9:ℚ)/20) / (11/20 + 9/20) else 1/2)
        * (9/10) ∧
    (analyzeOdds (5/2) (9/5) (some (16/5)) (11/20) (9/20)).team1_actual_prob +
      (analyzeOdds (5/2) (9/5) (some (16/5)) (11/20) (9/20)).team2_actual_prob +
      (analyzeOdds (5/2) (9/5) (some (16/5)) (11/20) (9/20)).draw_actual_prob
        = 1 :=
  claim_C5.1 (5/2) (9/5) (16/5) (11/20) (9/20) (by norm_num)

/-- C9 (implicit): the Odds Valuator normalizes the supplied strengths by
their sum when that sum is positive — so the actual probabilities over the
present outcomes always sum to 1 even when the strengths do not — and falls
back to 0.5 per team when the sum is not positive. -/
theorem claim_C9 (o1 o2 : ℚ) (d : Option ℚ) (s1 s2 : ℚ) :
    ((analyzeOdds o1 o2 d s1 s2).team1_actual_prob +
      (analyzeOdds o1 o2 d s1 s2).team2_actual_prob +
      (analyzeOdds o1 o2 d s1 s2).draw_actual_prob = 1) ∧
    (s1 + s2 > 0 → d = none →
      (analyzeOdds o1 o2 d s1 s2).team1_actual_prob = s1 / (s1 + s2) ∧
      (analyzeOdds o1 o2 d s1 s2).team2_actual_prob = s2 / (s1 + s2)) ∧
    (s1 + s2 > 0 → ∀ dv, d = some dv → dv ≠ 0 →
      (analyzeOdds o1 o2 d s1 s2).team1_actual_prob
        = s1 / (s1 + s2) * (9/10) ∧
      (analyzeOdds o1 o2 d s1 s2).team2_actual_prob
        = s2 / (s1 + s2) * (9/10)) ∧
    (¬ s1 + s2 > 0 → d = none →
      (analyzeOdds o1 o2 d s1 s2).team1_actual_prob = 1/2 ∧
      (analyzeOdds o1 o2 d s1 s2).team2_actual_prob = 1/2) ∧
    (¬ s1 + s2 > 0 → ∀ dv, d = some dv → dv ≠ 0 →
      (analyzeOdds o1 o2 d s1 s2).team1_actual_prob = 1/2 * (9/10) ∧
      (analyzeOdds o1 o2 d s1 s2).team2_actual_prob = 1/2 * (9/10)) := by
  refine ⟨analyzeOdds_actual_sum o1 o2 d s1 s2, ?_, ?_, ?_, ?_⟩
  · rintro hs rfl
    constructor <;> simp [analyzeOdds, truthyNum, if_pos hs]
  · rintro hs dv rfl hdv
    have ht : truthyNum (some dv) = true := by simp [truthyNum, hdv]
    constructor <;> simp [analyzeOdds, ht, if_pos hs]
  · rintro hs rfl
    constructor <;> simp [analyzeOdds, truthyNum, if_neg hs]
  · rintro hs dv rfl hdv
    have ht : truthyNum (some dv) = true := by simp [truthyNum, hdv]
    constructor <;> simp [analyzeOdds, ht, if_neg hs]

/-- Witness for C9 with strengths 0.3 and 0.3 (sum 0.6, not summing to 1)
and no draw: the actual probabilities are the normalized 0.5/0.5. -/
theorem claim_C9_witness :
    (analyzeOdds 2 2 none (3/10) (3/10)).team1_actual_prob +
      (analyzeOdds 2 2 none (3/10) (3/10)).team2_actual_prob +
      (analyzeOdds 2 2 none (3/10) (3/10)).draw_actual_prob = 1 ∧
    (analyzeOdds 2 2 none (3/10) (3/10)).team1_actual_prob
      = (3/10) / ((3:ℚ)/10 + 3/10) ∧
    (analyzeOdds 2 2 none (3/10) (3/10)).team2_actual_prob
      = (3/10) / ((3:ℚ)/10 + 3/10) :=
  ⟨(claim_C9 2 2 none (3/10) (3/10)).1,
   ((claim_C9 2 2 none (3/10) (3/10)).2.1 (by norm_num) rfl).1,
   ((claim_C9 2 2 none (3/10) (3/10)).2.1 (by norm_num) rfl).2⟩

/-- C10 (implicit): `analyze_odds_value` is total and never raises — an odds
value ≤ 0 yields implied probability 0 (the division is guarded) while EV is
still actual_probability × odds − 1, and `draw_odds` equal to exactly 0 is
treated as a completely absent draw outcome (the whole result coincides with
the no-draw result: no 0.9 scaling, draw EV 0, no draw recommendation). -/
theorem claim_C10 (o1 o2 : ℚ) (d : Option ℚ) (s1 s2 : ℚ) :
    (o1 ≤ 0 → (analyzeOdds o1 o2 d s1 s2).team1_implied_prob = 0) ∧
    (o2 ≤ 0 → (analyzeOdds o1 o2 d s1 s2).team2_implied_prob = 0) ∧
    (∀ dv, d = some dv → dv ≤ 0 →
      (analyzeOdds o1 o2 d s1 s2).draw_implied_prob = 0) ∧
    ((analyzeOdds o1 o2 d s1 s2).team1_ev =
      (analyzeOdds o1 o2 d s1 s2).team1_actual_prob * o1 - 1) ∧
    ((analyzeOdds o1 o2 d s1 s2).team2_ev =
      (analyzeOdds o1 o2 d s1 s2).team2_actual_prob * o2 - 1) ∧
    analyzeOdds o1 o2 (some 0) s1 s2 = analyzeOdds o1 o2 none s1 s2 := by
  have hz : truthyNum (some (0:ℚ)) = false := by simp [truthyNum]
  refine ⟨?_, ?_, ?_, ?_, ?_, ?_⟩
  · intro h
    simp [analyzeOdds, not_lt.mpr h]
  · intro h
    simp [analyzeOdds, not_lt.mpr h]
  · rintro dv rfl hdv
    simp [analyzeOdds, truthyNum, Option.getD, not_lt.mpr hdv]
  · simp [analyzeOdds]
  · simp [analyzeOdds]
  · simp [analyzeOdds, hz, truthyNum]

/-- Witness for C10: at odds team1 = −2, team2 = 0 the implied probabilities
are 0, and supplying draw odds exactly 0 gives the same result as no draw
odds at all. -/
theorem claim_C10_witness :
    (analyzeOdds (-2) 0 (some (-3)) (1/2) (1/2)).team1_implied_prob = 0 ∧
    (analyzeOdds (-2) 0 (some (-3)) (1/2) (1/2)).team2_implied_prob = 0 ∧
    (analyzeOdds (-2) 0 (some (-3)) (1/2) (1/2)).draw_implied_prob = 0 ∧
    analyzeOdds (-2) 0 (some 0) (1/2) (1/2) =
      analyzeOdds (-2) 0 none (1/2) (1/2) :=
  ⟨(claim_C10 (-2) 0 (some (-3)) (1/2) (1/2)).1 (by norm_num),
   (claim_C10 (-2) 0 (some (-3)) (1/2) (1/2)).2.1 (by norm_num),
   (claim_C10 (-2) 0 (some (-3)) (1/2) (1/2)).2.2.1 (-3) rfl (by norm_num),
   (claim_C10 (-2) 0 (some (-3)) (1/2) (1/2)).2.2.2.2.2⟩

/-- Counterexample to C1 as stated: `analyze_odds_value` raises nothing.
With team1_odds = 1.0 it returns a result whose team1 implied probability is
exactly 1.0, and with team1_odds = 0 it returns implied probability 0.  No
`InvalidOddsError` exists anywhere in the code. -/
theorem claim_C1_counterexample :
    (analyzeOdds 1 2 none (1/2) (1/2)).team1_implied_prob = 1 ∧
    (analyzeOdds 0 2 none (1/2) (1/2)).team1_implied_prob = 0 := by
  constructor <;> norm_num [analyzeOdds, truthyNum]

/-- C1 amended: the Odds Valuator performs no odds validation and never
raises: team1_odds = 1.0 produces a returned result with implied probability
exactly 1.0, and any supplied odds value ≤ 0 produces implied probability 0
(the guarded division), rather than an `InvalidOddsError`. -/
theorem claim_C1_amended (o1 o2 : ℚ) (d : Option ℚ) (s1 s2 : ℚ) :
    (o1 = 1 → (analyzeOdds o1 o2 d s1 s2).team1_implied_prob = 1) ∧
    (o1 ≤ 0 → (analyzeOdds o1 o2 d s1 s2).team1_implied_prob = 0) ∧
    (o2 ≤ 0 → (analyzeOdds o1 o2 d s1 s2).team2_implied_prob = 0) ∧
    (∀ dv, d = some dv → dv ≤ 0 →
      (analyzeOdds o1 o2 d s1 s2).draw_implied_prob = 0) := by
  refine ⟨?_, ?_, ?_, ?_⟩
  · rintro rfl
    norm_num [analyzeOdds]
  · intro h
    simp [analyzeOdds, not_lt.mpr h]
  · intro h
    simp [analyzeOdds, not_lt.mpr h]
  · rintro dv rfl hdv
    simp [analyzeOdds, truthyNum, Option.getD, not_lt.mpr hdv]

/-- Witness for the amended C1 at odds 1.0 and 0. -/
theorem claim_C1_witness :
    (analyzeOdds 1 2 none (11/20) (9/20)).team1_implied_prob = 1 ∧
    (analyzeOdds 0 2 none (11/20) (9/20)).team1_implied_prob = 0 :=
  ⟨(claim_C1_amended 1 2 none (11/20) (9/20)).1 rfl,
   (claim_C1_amended 0 2 none (11/20) (9/20)).2.1 (by norm_num)⟩
